import Mathlib

/-!
Shallow embedding of the authentication/authorization core of the
`api-user-template` Express/Prisma application.

Every definition below is translated from the TypeScript source:
`src/exceptions/HttpException.ts`, `src/error-handler.ts`,
`src/middleware/errorMiddleware.ts`, `src/middleware/authMiddleware.ts`,
`src/middleware/isAdminMiddleware.ts`, `src/modules/auth/auth.service.ts`,
`src/modules/auth/auth.controller.ts`, `src/modules/auth/singUp.schema.ts`,
`src/modules/users/update.schema.ts`, `src/modules/users/user.controller.ts`
and `src/modules/users/user.service.ts`, over the Prisma data model
(`User`, `Token`).

External collaborators (bcrypt, jsonwebtoken) are passed in as explicit
function parameters, mirroring the dependency on the library calls:
the controllers only branch on their results.  The Prisma store is an
explicit `DB` value threaded through the operations; Prisma calls that can
throw (`create`, `delete`) are modelled as `Except`.
-/

namespace ApiUser

/-! ### Error codes — src/exceptions/HttpException.ts -/

namespace ErrorCode
def USER_NOT_FOUND : Nat := 1001
def USER_ALREADY_EXISTS : Nat := 1002
def INCORRECT_PASSWORD : Nat := 1003
def UNPROCESSABLE_ENTITY : Nat := 2001
def INTERNAL_EXCEPTION : Nat := 3001
def UNAUTHORIZED : Nat := 4001
def VALIDATION_ERROR : Nat := 5002
def TOKEN_NOT_FOUND : Nat := 6001
def SELF_DEMOTION : Nat := 7001
end ErrorCode

/-- One entry of the field-level detail list built by `ValidationException`
from a `ZodError` (`src/exceptions/ValidationException.ts`). -/
structure FieldIssue where
  field : String
  message : String
deriving Repr, DecidableEq

/-- The `_errors` payload of an `HttpException`: either the formatted
validation issues, or the raw error object wrapped by `InternalException`
(modelled by its message string). -/
inductive ErrPayload where
  | validation (issues : List FieldIssue)
  | raw (msg : String)
deriving Repr, DecidableEq

/-- `HttpException` — src/exceptions/HttpException.ts. -/
structure HttpException where
  message : String
  errorCode : Nat
  statusCode : Nat
  errors : Option ErrPayload
deriving Repr, DecidableEq

/-- `UnauthorizedException` (status 401) — src/exceptions/UnauthorizedException.ts. -/
def UnauthorizedException (message : String) (errorCode : Nat) : HttpException :=
  ⟨message, errorCode, 401, none⟩

/-- `NotFoundException` (status 404) — src/exceptions/NotFoundException.ts. -/
def NotFoundException (message : String) (errorCode : Nat) : HttpException :=
  ⟨message, errorCode, 404, none⟩

/-- `BadRequestException` (status 400) — src/exceptions/BadRequestException.ts. -/
def BadRequestException (message : String) (errorCode : Nat) : HttpException :=
  ⟨message, errorCode, 400, none⟩

/-- `ValidationException` (status 400) — src/exceptions/ValidationException.ts. -/
def ValidationException (issues : List FieldIssue) : HttpException :=
  ⟨"Validation failed", ErrorCode.VALIDATION_ERROR, 400, some (.validation issues)⟩

/-- `InternalException` (status 500) — src/exceptions/InternalException.ts. -/
def InternalException (message : String) (err : String) (errorCode : Nat) : HttpException :=
  ⟨message, errorCode, 500, some (.raw err)⟩

/-! ### Prisma data model — `model User`, `model Token` -/

/-- `model User` of the Prisma schema: `password` holds the bcrypt hash,
`role` is a free string (`USER` / `ADMIN`, plus `ROOT` from the seed
script), `delete` is the soft-delete flag (default `false`). -/
structure User where
  id : Nat
  name : String
  email : String
  password : String
  role : String
  delete : Bool
deriving Repr, DecidableEq

/-- `model Token` of the Prisma schema: `key` is the literal JWT string,
`active` defaults to `true` on creation. -/
structure Token where
  id : Nat
  key : String
  userId : Nat
  active : Bool
deriving Repr, DecidableEq

/-- The relational store (`db.user` and `db.token` tables). -/
structure DB where
  users : List User
  tokens : List Token
deriving Repr, DecidableEq

/-! ### External collaborators (bcrypt, jsonwebtoken) -/

/-- `bcrypt.hashSync(plain, saltRound)` with the process-wide salt round. -/
abbrev Hasher := String → String

/-- `bcrypt.compareSync(plain, hashed)`. -/
abbrev Comparer := String → String → Bool

/-- `jwt.sign({sub, name, role}, JWT_SECRET, {expiresIn: "1h"})`:
produces the opaque token string from the three claims. -/
abbrev Signer := Nat → String → String → String

/-- The three ways `jwt.verify` can throw (expired `exp`, malformed token,
bad signature).  The middleware's `catch` never inspects which one. -/
inductive VerifyError where
  | expired
  | malformed
  | badSignature
deriving Repr, DecidableEq

/-- The claims extracted by `jwt.verify` (interface `AuthPayload` in
src/middleware/authMiddleware.ts); `sub` is the user id — the source reads
it back with `Number(payload.sub)`, so it is modelled as a `Nat`. -/
structure AuthPayload where
  sub : Nat
  name : String
  role : String
deriving Repr, DecidableEq

/-- `jwt.verify(token, JWT_SECRET)` with the process-wide secret baked in. -/
abbrev Verifier := String → Except VerifyError AuthPayload

/-! ### Request context and responses -/

/-- `req.user` as declared in the Express `Request` extension. -/
structure ReqUser where
  id : Nat
  role : String
deriving Repr, DecidableEq

/-- `req.token` as declared in the Express `Request` extension. -/
structure ReqToken where
  id : Nat
  key : String
deriving Repr, DecidableEq

/-- The Authenticated Request Context attached by `authMiddleware`. -/
structure ReqContext where
  user : ReqUser
  token : ReqToken
deriving Repr, DecidableEq

/-- Options of `res.cookie("jwt", token, {...})`; `maxAge` in milliseconds. -/
structure CookieOpts where
  httpOnly : Bool
  sameSite : String
  secure : Bool
  maxAge : Nat
deriving Repr, DecidableEq

/-- A `Set-Cookie` emitted by `res.cookie`. -/
structure SetCookie where
  name : String
  value : String
  opts : CookieOpts
deriving Repr, DecidableEq

/-- The JSON body shapes the controllers produce.  `envelope` is the
uniform error body `{message, errorCode, errors?}` rendered by
`errorMiddleware` / the `errorHandler` catch block. -/
inductive Body where
  | signupOk (email role : String)
  | loginOk (userID : Nat) (message : String)
  | logoutOk (userId : Nat) (message : String)
  | updateOk (message : String) (user : User)
  | envelope (message : String) (errorCode : Nat) (errors : Option ErrPayload)
deriving Repr, DecidableEq

/-- A finished HTTP response: status, JSON body, optional `Set-Cookie`,
and whether `res.clearCookie("jwt", ...)` was called. -/
structure Response where
  status : Nat
  body : Body
  cookie : Option SetCookie
  cleared : Bool
deriving Repr, DecidableEq

/-- What a controller can raise: an `HttpException` handed to `next`, a
`ZodError` thrown by `.parse`, or any other thrown error (e.g. a Prisma
error), identified by its message. -/
inductive Thrown where
  | http (e : HttpException)
  | zod (issues : List FieldIssue)
  | other (msg : String)
deriving Repr, DecidableEq

/-- Rendering of an `HttpException` as the client-visible response
(`errorMiddleware` for `next(err)`, or the `errorHandler` catch block —
both produce `{message, errorCode, errors?}` with the exception's status). -/
def envelopeOf (e : HttpException) : Response :=
  { status := e.statusCode
    body := .envelope e.message e.errorCode e.errors
    cookie := none
    cleared := false }

/-- The conversion in `errorHandler`'s catch block (src/error-handler.ts):
`HttpException` kept as is, `ZodError` wrapped as `ValidationException`,
anything else as `InternalException "Something went wrong!"`. -/
def envelopeOfThrown : Thrown → Response
  | .http e => envelopeOf e
  | .zod issues => envelopeOf (ValidationException issues)
  | .other msg =>
      envelopeOf (InternalException "Something went wrong!" msg ErrorCode.INTERNAL_EXCEPTION)

/-- Runs a controller under the `errorHandler` boundary: a raised error
leaves the store untouched and yields the uniform error envelope. -/
def runRoute (db : DB) (r : Except Thrown (DB × Response)) : DB × Response :=
  match r with
  | .ok x => x
  | .error t => (db, envelopeOfThrown t)

/-! ### Auth service — src/modules/auth/auth.service.ts -/

/-- Autoincrement surrogate id for a fresh `User` row. -/
def nextUserId (db : DB) : Nat :=
  db.users.foldl (fun m u => max m u.id) 0 + 1

/-- Autoincrement surrogate id for a fresh `Token` row. -/
def nextTokenId (db : DB) : Nat :=
  db.tokens.foldl (fun m t => max m t.id) 0 + 1

/-- `create` in auth.service.ts: `db.user.create` with the hashed password;
`delete` takes the Prisma default `false`. -/
def create (hash : Hasher) (db : DB) (name email password role : String) : DB × User :=
  let u : User :=
    { id := nextUserId db, name := name, email := email
      password := hash password, role := role, delete := false }
  ({ db with users := db.users ++ [u] }, u)

/-- `isExists` in auth.service.ts:
`db.user.findFirst({where: {email, delete: false}})`. -/
def isExists (db : DB) (email : String) : Option User :=
  db.users.find? (fun u => u.email == email && u.delete == false)

/-- `createToken` in auth.service.ts: sign `{sub, name, role}` with a 1-hour
expiry, then `db.token.create({data: {key, userId}})` — `active` takes the
Prisma default `true`.  `storeOk = false` models the insert failing, in
which case Prisma throws (the subsequent `if (!saveToken) throw ...` guard
in the source is unreachable, since a successful `create` never returns
null). -/
def createToken (sign : Signer) (storeOk : Bool) (db : DB) (user : User) :
    Except Thrown (DB × String) :=
  let token := sign user.id user.name user.role
  if storeOk then
    let saveToken : Token :=
      { id := nextTokenId db, key := token, userId := user.id, active := true }
    .ok ({ db with tokens := db.tokens ++ [saveToken] }, token)
  else
    .error (.other "P2002: token insert failed")

/-- `deleteToken` in auth.service.ts:
`db.token.delete({where: {id, key: token, active: true}})`.  Prisma's
`delete` returns the deleted row when one matches all predicates and
throws `P2025` otherwise — it never resolves to null. -/
def deleteToken (db : DB) (token : String) (id : Nat) : Except Thrown (DB × Token) :=
  match db.tokens.find? (fun t => t.id == id && t.key == token && t.active) with
  | some t => .ok ({ db with tokens := db.tokens.filter (fun r => r.id != id) }, t)
  | none => .error (.other "P2025: no Token record found to delete")

/-! ### Authentication pipeline — src/middleware/authMiddleware.ts -/

/-- `db.token.findFirst({where: {userId, key, active: true},
include: {user: true}})`: the active-record lookup joined with the owning
user row (a required relation, so the join is present whenever the record
is; an integrity-violating record with no owner behaves as not found). -/
def findUserToken (db : DB) (userId : Nat) (key : String) : Option (Token × User) :=
  match db.tokens.find? (fun t => t.userId == userId && t.key == key && t.active) with
  | none => none
  | some t => (db.users.find? (fun u => u.id == t.userId)).map (fun u => (t, u))

/-- `authMiddleware`: cookie check, `jwt.verify` (any throw collapses to
the generic Unauthorized), revocation lookup, then attach `req.user` and
`req.token`.  `userToken.user.role || payload.role` — the JS `||` falls
back to the token claim when the row's role is the empty string. -/
def authMiddleware (verify : Verifier) (db : DB) (cookie : Option String) :
    Except HttpException ReqContext :=
  match cookie with
  | none => .error (UnauthorizedException "Unauthorized" ErrorCode.UNAUTHORIZED)
  | some token =>
    match verify token with
    | .error _ => .error (UnauthorizedException "Unauthorized" ErrorCode.UNAUTHORIZED)
    | .ok payload =>
      match findUserToken db payload.sub token with
      | none => .error (UnauthorizedException "Unauthorized" ErrorCode.UNAUTHORIZED)
      | some (userToken, user) =>
        .ok { user := { id := userToken.userId
                        role := if user.role == "" then payload.role else user.role }
              token := { id := userToken.id, key := userToken.key } }

/-- `isAdminMiddleware` — src/middleware/isAdminMiddleware.ts. -/
def isAdminMiddleware (ctx : ReqContext) : Except HttpException Unit :=
  if ctx.user.role != "ADMIN" then
    .error (UnauthorizedException "Access Denied. Admins only" ErrorCode.UNAUTHORIZED)
  else
    .ok ()

/-- A protected route: `[authMiddleware]` then the handler under
`errorHandler`.  When the middleware calls `next(err)` Express skips the
handler entirely and renders the envelope. -/
def protectedRoute (verify : Verifier) (db : DB) (cookie : Option String)
    (handler : ReqContext → DB → Except Thrown (DB × Response)) : DB × Response :=
  match authMiddleware verify db cookie with
  | .error e => (db, envelopeOf e)
  | .ok ctx => runRoute db (handler ctx db)

/-! ### Validation schemas — singUp.schema.ts, update.schema.ts -/

/-- The JS/Zod `.trim()` transform, implemented over the character list
(equivalent to `String.trim`, kept elementary so concrete instances
evaluate). -/
def ztrim (s : String) : String :=
  String.mk (((s.data.dropWhile Char.isWhitespace).reverse.dropWhile Char.isWhitespace).reverse)

/-- Abstraction of Zod's email format check (`z.email`); the verified
claims do not depend on the exact format predicate. -/
def isEmail (s : String) : Bool := s.data.contains (Char.ofNat 64)

/-- The raw signup request body; `role` models any client-supplied role
key, which `z.object` strips because the schema does not declare it. -/
structure SignupBody where
  name : String
  email : String
  password : String
  role : Option String
deriving Repr, DecidableEq

/-- The parsed output of `singUpSchema` (name/email/password trimmed). -/
structure SignupData where
  name : String
  email : String
  password : String
deriving Repr, DecidableEq

/-- `singUpSchema.parse` — src/modules/auth/singUp.schema.ts: trims the
three declared fields, enforces the minimum lengths and the email format,
throws a `ZodError` with the collected issues otherwise. -/
def singUpSchemaParse (b : SignupBody) : Except Thrown SignupData :=
  let name := ztrim b.name
  let email := ztrim b.email
  let password := ztrim b.password
  let issues :=
    (if name.length < 6 then [⟨"name", "Name must be at least 6 characters"⟩] else [])
    ++ (if isEmail b.email then [] else [⟨"email", "Invalid email"⟩])
    ++ (if email.length < 6 then [⟨"email", "Email must be at least 6 characters"⟩] else [])
    ++ (if password.length < 6 then [⟨"password", "Password must be at least 6 characters"⟩] else [])
  if issues.isEmpty then .ok ⟨name, email, password⟩ else .error (.zod issues)

/-- The raw admin-update request body (all fields optional). -/
structure UpdateBody where
  name : Option String
  email : Option String
  password : Option String
  role : Option String
deriving Repr, DecidableEq

/-- `updateSchema.parse` — src/modules/users/update.schema.ts: optional
trimmed name/password with minimum lengths, optional email format check,
and `role` constrained to the enum `["USER", "ADMIN"]`. -/
def updateSchemaParse (b : UpdateBody) : Except Thrown UpdateBody :=
  let issues :=
    (match b.name with
     | some n => if (ztrim n).length < 6 then [⟨"name", "Name must be at least 6 characters"⟩] else []
     | none => [])
    ++ (match b.email with
        | some e => if isEmail e then [] else [⟨"email", "Invalid email"⟩]
        | none => [])
    ++ (match b.password with
        | some p => if (ztrim p).length < 6 then [⟨"password", "Password must be at least 6 characters"⟩] else []
        | none => [])
    ++ (match b.role with
        | some r => if r == "USER" || r == "ADMIN" then [] else [⟨"role", "Invalid option"⟩]
        | none => [])
  if issues.isEmpty then
    .ok { b with
          name := b.name.map ztrim
          password := b.password.map ztrim }
  else
    .error (.zod issues)

/-! ### Auth controller — src/modules/auth/auth.controller.ts -/

/-- `signup`: validate, reject an existing non-deleted user, persist with
the role forced to `"USER"`, answer `201 {email, role}`. -/
def signup (hash : Hasher) (db : DB) (body : SignupBody) : Except Thrown (DB × Response) :=
  match singUpSchemaParse body with
  | .error e => .error e
  | .ok data =>
    match isExists db data.email with
    | some _ =>
      .error (.http (BadRequestException "User already exists!" ErrorCode.USER_ALREADY_EXISTS))
    | none =>
      let (db', user) := create hash db data.name data.email data.password "USER"
      .ok (db', { status := 201, body := .signupOk user.email user.role
                  cookie := none, cleared := false })

/-- `login`: look up the non-deleted user, `compareSync` the password,
`createToken`, then set the `jwt` cookie.  The cookie options are the
source's literals: `httpOnly: true`, `sameSite: "lax"`, `secure: false`
(hard-coded — `NODE_ENV` is imported by the controller but not consulted
here), `maxAge: 60 * 60 * 1000`. -/
def login (compare : Comparer) (sign : Signer) (storeOk : Bool) (NODE_ENV : String)
    (db : DB) (email password : String) : Except Thrown (DB × Response) :=
  match isExists db email with
  | none =>
    .error (.http (NotFoundException "User does not exists!" ErrorCode.USER_NOT_FOUND))
  | some user =>
    if !(compare password user.password) then
      .error (.http (BadRequestException "Incorrect password!" ErrorCode.INCORRECT_PASSWORD))
    else
      match createToken sign storeOk db user with
      | .error t => .error t
      | .ok (db', token) =>
        .ok (db', { status := 200
                    body := .loginOk user.id "Login success!"
                    cookie := some { name := "jwt", value := token
                                     opts := { httpOnly := true, sameSite := "lax"
                                               secure := false, maxAge := 60 * 60 * 1000 } }
                    cleared := false })

/-- `logout` (runs after `authMiddleware`): `deleteToken` on the context's
record id and exact token string, then clear the cookie and answer 201.
The source's `if (!userToken)` guard is unreachable: Prisma's `delete`
either returns the deleted row or throws. -/
def logout (NODE_ENV : String) (db : DB) (ctx : ReqContext) : Except Thrown (DB × Response) :=
  match deleteToken db ctx.token.key ctx.token.id with
  | .error t => .error t
  | .ok (db', userToken) =>
    .ok (db', { status := 201, body := .logoutOk userToken.userId "Logout success"
                cookie := none, cleared := true })

/-! ### User service and controller — src/modules/users -/

/-- `userByID` in user.service.ts: `db.user.findFirst({where: {id}})`. -/
def userByID (db : DB) (id : Nat) : Option User :=
  db.users.find? (fun u => u.id == id)

/-- `userUpdate` in user.service.ts: `db.user.update` writing name, email,
password and role of the row with the given id. -/
def userUpdate (db : DB) (user : User) : DB :=
  { db with
    users := db.users.map (fun u =>
      if u.id == user.id then
        { u with name := user.name, email := user.email
                 password := user.password, role := user.role }
      else u) }

/-- `userSoftDelete` in user.service.ts: `db.user.update` setting
`delete: true` on the row with the given id. -/
def userSoftDelete (db : DB) (id : Nat) : DB :=
  { db with
    users := db.users.map (fun u => if u.id == id then { u with delete := true } else u) }

/-- The JS truthiness test `data.role && data.role !== "ADMIN"` of the
self-demotion guard. -/
def roleNonAdmin : Option String → Bool
  | some r => !(r == "") && r != "ADMIN"
  | none => false

/-- `update` in user.controller.ts: 404 on a missing target, Zod-validate,
reject a self-targeted role change away from `ADMIN`, else merge the
provided fields (hashing a provided password) and persist. -/
def update (hash : Hasher) (db : DB) (ctx : ReqContext) (idParam : Nat)
    (body : UpdateBody) : Except Thrown (DB × Response) :=
  let targetId := idParam
  match userByID db targetId with
  | none => .error (.http (NotFoundException "User not found" ErrorCode.USER_NOT_FOUND))
  | some existingUser =>
    match updateSchemaParse body with
    | .error e => .error e
    | .ok data =>
      if ctx.user.id == targetId && roleNonAdmin data.role then
        .error (.http (BadRequestException "You cannot demote yourself" ErrorCode.SELF_DEMOTION))
      else
        let merged : User :=
          { existingUser with
            name := data.name.getD existingUser.name
            email := data.email.getD existingUser.email
            role := data.role.getD existingUser.role }
        let updatedUserData : User :=
          match data.password with
          | some p => { merged with password := hash p }
          | none => merged
        let db' := userUpdate db updatedUserData
        .ok (db', { status := 200, body := .updateOk "User updated" updatedUserData
                    cookie := none, cleared := false })

/-- `softDelete` in user.controller.ts: 404 on a missing target, reject a
self-targeted delete, else flip the soft-delete flag. -/
def softDelete (db : DB) (ctx : ReqContext) (idParam : Nat) : Except Thrown (DB × Response) :=
  match userByID db idParam with
  | none => .error (.http (NotFoundException "User not found" ErrorCode.USER_NOT_FOUND))
  | some existingUser =>
    if ctx.user.id == idParam then
      .error (.http (BadRequestException "You cannot delete yourself" ErrorCode.SELF_DEMOTION))
    else
      .ok (userSoftDelete db idParam,
           { status := 200, body := .updateOk "User deleted" { existingUser with delete := true }
             cookie := none, cleared := false })

/-! ### Route-level views (errorHandler / errorMiddleware applied) -/

/-- `POST /auth/signup` as the client sees it. -/
def routeSignup (hash : Hasher) (db : DB) (body : SignupBody) : DB × Response :=
  runRoute db (signup hash db body)

/-- `POST /auth/login` as the client sees it. -/
def routeLogin (compare : Comparer) (sign : Signer) (storeOk : Bool) (NODE_ENV : String)
    (db : DB) (email password : String) : DB × Response :=
  runRoute db (login compare sign storeOk NODE_ENV db email password)

/-- `POST /auth/logout` as the client sees it: `[authMiddleware]` then the
logout handler. -/
def routeLogout (verify : Verifier) (NODE_ENV : String) (db : DB)
    (cookie : Option String) : DB × Response :=
  protectedRoute verify db cookie (fun ctx db => logout NODE_ENV db ctx)

/-- `PATCH /protected/user/:id` after the middleware chain succeeded. -/
def routeUpdate (hash : Hasher) (db : DB) (ctx : ReqContext) (idParam : Nat)
    (body : UpdateBody) : DB × Response :=
  runRoute db (update hash db ctx idParam body)

/-! ### Spec-side helpers for the stated properties -/

/-- Marks every user row soft-deleted; used to state that the
Authentication Pipeline is insensitive to the `delete` flag. -/
def markAllDeleted (db : DB) : DB :=
  { db with users := db.users.map (fun u => { u with delete := true }) }

/-- The Session Record Store invariant: every existing record is active. -/
def AllActive (db : DB) : Prop := ∀ t ∈ db.tokens, t.active = true

/-- One client-triggered operation of the authentication core (with the
library collaborators and request data it was invoked with). -/
inductive Op where
  | opSignup (hash : Hasher) (body : SignupBody)
  | opLogin (compare : Comparer) (sign : Signer) (storeOk : Bool) (env : String)
      (email password : String)
  | opLogout (verify : Verifier) (env : String) (cookie : Option String)
  | opUpdate (hash : Hasher) (ctx : ReqContext) (idParam : Nat) (body : UpdateBody)
  | opSoftDelete (ctx : ReqContext) (idParam : Nat)

/-- Effect of an operation on the store (route-level, so failed operations
leave the store untouched). -/
def applyOp (db : DB) : Op → DB
  | .opSignup hash body => (routeSignup hash db body).1
  | .opLogin compare sign storeOk env email password =>
      (routeLogin compare sign storeOk env db email password).1
  | .opLogout verify env cookie => (routeLogout verify env db cookie).1
  | .opUpdate hash ctx idParam body => (routeUpdate hash db ctx idParam body).1
  | .opSoftDelete ctx idParam => (runRoute db (softDelete db ctx idParam)).1

/-- The store after a sequence of operations, starting from empty tables. -/
def reachable (ops : List Op) : DB := ops.foldl applyOp ⟨[], []⟩

/-! ## Theorems -/

/-- If every stored record fails the (subject, exact token, active)
predicate, the revocation lookup finds nothing. -/
theorem find?_token_none (tokens : List Token) (sub : Nat) (key : String)
    (h : ∀ t ∈ tokens, t.userId = sub → t.key = key → t.active = false) :
    tokens.find? (fun t => t.userId == sub && t.key == key && t.active) = none := by
  rw [List.find?_eq_none]
  intro t ht hp
  simp only [Bool.and_eq_true, beq_iff_eq] at hp
  obtain ⟨⟨h1, h2⟩, h3⟩ := hp
  rw [h t ht h1 h2] at h3
  exact Bool.noConfusion h3

/-- If every user row matching the email is soft-deleted, the
`isExists` lookup (which filters on `delete: false`) finds nothing. -/
theorem find?_user_none (users : List User) (email : String)
    (h : ∀ u ∈ users, u.email = email → u.delete = true) :
    users.find? (fun u => u.email == email && u.delete == false) = none := by
  rw [List.find?_eq_none]
  intro u hu hp
  simp only [Bool.and_eq_true, beq_iff_eq] at hp
  obtain ⟨h1, h2⟩ := hp
  rw [h u hu h1] at h2
  exact Bool.noConfusion h2

/-- C1: a protected request with a correctly verified, unexpired token is
still rejected with the generic Unauthorized error when no active Session
Record matches the token's subject and exact string; the route handler
(universally quantified) never runs and the store is untouched. -/
theorem revoked_session_is_rejected (verify : Verifier) (db : DB) (token : String)
    (payload : AuthPayload) (handler : ReqContext → DB → Except Thrown (DB × Response))
    (hver : verify token = .ok payload)
    (hno : ∀ t ∈ db.tokens, t.userId = payload.sub → t.key = token → t.active = false) :
    protectedRoute verify db (some token) handler
      = (db, envelopeOf (UnauthorizedException "Unauthorized" ErrorCode.UNAUTHORIZED)) := by
  simp only [protectedRoute, authMiddleware, findUserToken, hver,
    find?_token_none db.tokens payload.sub token hno]

/-- Witness for C1: a concrete store whose only record is another session
of the same user (the presented token's own record was deleted). -/
theorem revoked_session_is_rejected_witness :
    protectedRoute (fun _ => .ok ⟨1, "alice", "USER"⟩)
        ⟨[⟨1, "alice", "alice@mail.com", "hpw", "USER", false⟩],
         [⟨7, "other-session-token", 1, true⟩]⟩
        (some "tok-logged-out")
        (fun _ db => .ok (db, ⟨200, .loginOk 1 "handler ran", none, false⟩))
      = (⟨[⟨1, "alice", "alice@mail.com", "hpw", "USER", false⟩],
          [⟨7, "other-session-token", 1, true⟩]⟩,
         envelopeOf (UnauthorizedException "Unauthorized" ErrorCode.UNAUTHORIZED)) :=
  revoked_session_is_rejected _ _ _ _ _ rfl (by decide)

/-- C5: whichever way `jwt.verify` fails (expired, malformed, bad
signature), the client-visible response is the one generic Unauthorized
envelope — the right-hand side does not depend on the failure kind `e`. -/
theorem verify_failure_uniform_response (verify : Verifier) (db : DB) (token : String)
    (e : VerifyError) (handler : ReqContext → DB → Except Thrown (DB × Response))
    (hver : verify token = .error e) :
    protectedRoute verify db (some token) handler
      = (db, envelopeOf (UnauthorizedException "Unauthorized" ErrorCode.UNAUTHORIZED)) := by
  simp only [protectedRoute, authMiddleware, hver]

/-- Witness for C5: an expired token and a bad-signature token produce the
very same response on the same store. -/
theorem verify_failure_uniform_response_witness :
    protectedRoute (fun _ => .error .expired)
        ⟨[⟨2, "bob", "bob@mail.com", "hpw", "USER", false⟩], []⟩ (some "tk")
        (fun _ db => .ok (db, ⟨200, .loginOk 2 "handler ran", none, false⟩))
      = (⟨[⟨2, "bob", "bob@mail.com", "hpw", "USER", false⟩], []⟩,
         envelopeOf (UnauthorizedException "Unauthorized" ErrorCode.UNAUTHORIZED))
    ∧ protectedRoute (fun _ => .error .badSignature)
        ⟨[⟨2, "bob", "bob@mail.com", "hpw", "USER", false⟩], []⟩ (some "tk")
        (fun _ db => .ok (db, ⟨200, .loginOk 2 "handler ran", none, false⟩))
      = (⟨[⟨2, "bob", "bob@mail.com", "hpw", "USER", false⟩], []⟩,
         envelopeOf (UnauthorizedException "Unauthorized" ErrorCode.UNAUTHORIZED)) :=
  ⟨verify_failure_uniform_response _ _ _ _ _ rfl,
   verify_failure_uniform_response _ _ _ _ _ rfl⟩

/-- C2 (counterexample): a soft-deleted user (`delete := true`) whose
active Session Record still matches the presented token is *accepted* by
the Authentication Pipeline — `authMiddleware` never consults the owning
user's `delete` flag, so the claim's second half fails at this input. -/
theorem soft_deleted_user_session_accepted :
    authMiddleware
        (fun s => if s == "tok1" then .ok ⟨1, "victim", "USER"⟩ else .error .badSignature)
        ⟨[{ id := 1, name := "victim", email := "victim@mail.com", password := "hpw"
            role := "USER", delete := true }],
         [{ id := 1, key := "tok1", userId := 1, active := true }]⟩
        (some "tok1")
      = .ok ⟨⟨1, "USER"⟩, ⟨1, "tok1"⟩⟩ := by
  rfl

/-- C2 (amended): soft deletion blocks the *login* path — `isExists`
filters on `delete: false`, so login fails with the user-not-found error —
but it does not invalidate existing sessions: the Authentication
Pipeline's verdict is unchanged if every user row is marked soft-deleted,
because its revocation check reads only the Session Record's own fields
and the user row's role. -/
theorem soft_delete_blocks_login_not_sessions :
    (∀ (compare : Comparer) (sign : Signer) (storeOk : Bool) (env : String) (db : DB)
        (email password : String),
        (∀ u ∈ db.users, u.email = email → u.delete = true) →
        routeLogin compare sign storeOk env db email password
          = (db, envelopeOf (NotFoundException "User does not exists!" ErrorCode.USER_NOT_FOUND)))
    ∧ (∀ (verify : Verifier) (db : DB) (cookie : Option String),
        authMiddleware verify (markAllDeleted db) cookie = authMiddleware verify db cookie) := by
  constructor
  · intro compare sign storeOk env db email password h
    simp only [routeLogin, login, isExists, find?_user_none db.users email h,
      runRoute, envelopeOfThrown]
  · intro verify db cookie
    cases cookie with
    | none => rfl
    | some token =>
      cases hv : verify token with
      | error e => simp only [authMiddleware, hv]
      | ok payload =>
        simp only [authMiddleware, hv, findUserToken, markAllDeleted]
        cases hf : db.tokens.find?
            (fun t => t.userId == payload.sub && t.key == token && t.active) with
        | none => rfl
        | some t =>
          dsimp only
          rw [List.find?_map]
          have hcomp : ((fun u : User => u.id == t.userId)
                ∘ (fun u : User => { u with delete := true }))
              = (fun u : User => u.id == t.userId) := rfl
          rw [hcomp]
          cases hu : db.users.find? (fun u => u.id == t.userId) with
          | none => rfl
          | some u => rfl

/-- Witness for the amended C2: a concrete soft-deleted user cannot log
in — the response is the user-not-found envelope. -/
theorem soft_delete_blocks_login_witness :
    routeLogin (fun _ _ => true) (fun _ _ _ => "t") true "development"
        ⟨[{ id := 1, name := "victim", email := "victim@mail.com", password := "hpw"
            role := "USER", delete := true }], []⟩
        "victim@mail.com" "pw"
      = (⟨[{ id := 1, name := "victim", email := "victim@mail.com", password := "hpw"
             role := "USER", delete := true }], []⟩,
         envelopeOf (NotFoundException "User does not exists!" ErrorCode.USER_NOT_FOUND)) :=
  soft_delete_blocks_login_not_sessions.1 _ _ _ _ _ _ _ (by decide)

/-- C3 (code behavior at the failing input): a second logout replaying the
same context after the record was already hard-deleted does not produce
the 404 "Token does not exists!" response — Prisma's `delete` throws when
no record matches, so the catch-all boundary answers 500
`INTERNAL_EXCEPTION`, and the source's `if (!userToken)` 404 branch is
unreachable. -/
theorem double_logout_yields_internal_error :
    runRoute
        ⟨[{ id := 1, name := "admin", email := "admin@mail.com", password := "hpw"
            role := "ADMIN", delete := false }], []⟩
        (logout "production"
          ⟨[{ id := 1, name := "admin", email := "admin@mail.com", password := "hpw"
              role := "ADMIN", delete := false }], []⟩
          ⟨⟨1, "ADMIN"⟩, ⟨5, "tok"⟩⟩)
      = (⟨[{ id := 1, name := "admin", email := "admin@mail.com", password := "hpw"
             role := "ADMIN", delete := false }], []⟩,
         envelopeOf (InternalException "Something went wrong!"
           "P2025: no Token record found to delete" ErrorCode.INTERNAL_EXCEPTION))
    ∧ envelopeOf (InternalException "Something went wrong!"
          "P2025: no Token record found to delete" ErrorCode.INTERNAL_EXCEPTION)
        ≠ envelopeOf (NotFoundException "Token does not exists!" ErrorCode.TOKEN_NOT_FOUND) := by
  exact ⟨rfl, by decide⟩

/-- C4 (code behavior at the failing input): a successful login in the
production environment sets the `jwt` cookie with `httpOnly`, `sameSite
lax` and a 3600-second max-age as claimed, but with `secure = false` —
the source hard-codes `secure: false` instead of consulting `NODE_ENV`. -/
theorem login_cookie_secure_false_in_production :
    (routeLogin (fun _ _ => true) (fun _ _ _ => "tok") true "production"
        ⟨[{ id := 1, name := "admin", email := "admin@mail.com", password := "hpw"
            role := "ADMIN", delete := false }], []⟩
        "admin@mail.com" "pw").2.cookie
      = some { name := "jwt", value := "tok"
               opts := { httpOnly := true, sameSite := "lax", secure := false
                         maxAge := 3600000 } } := by
  rfl

/-- C6: every successful signup persists exactly one new user whose role
is `"USER"` — whatever role the client supplied in the body — and the 201
response body is the `signupOk` shape carrying exactly the email and role
fields (by the shape of `Body.signupOk`, neither the password hash nor the
id can appear in it). -/
theorem signup_forces_role_user (hash : Hasher) (db : DB) (body : SignupBody)
    (db' : DB) (resp : Response) (h : signup hash db body = .ok (db', resp)) :
    ∃ u : User, db'.users = db.users ++ [u] ∧ u.role = "USER"
      ∧ resp = { status := 201, body := .signupOk u.email "USER"
                 cookie := none, cleared := false } := by
  unfold signup at h
  cases hp : singUpSchemaParse body with
  | error e => simp [hp] at h
  | ok data =>
    rw [hp] at h
    dsimp only at h
    cases hex : isExists db data.email with
    | some u0 => simp [hex] at h
    | none =>
      rw [hex] at h
      simp only [create, Except.ok.injEq, Prod.mk.injEq] at h
      obtain ⟨hdb, hresp⟩ := h
      refine ⟨{ id := nextUserId db, name := data.name, email := data.email
                password := hash data.password, role := "USER", delete := false },
              ?_, rfl, ?_⟩
      · rw [← hdb]
      · rw [← hresp]

/-- Witness for C6: a signup that tries to self-assign `role: "ADMIN"`
still ends up persisted as `USER` with a `{email, role}` body. -/
theorem signup_forces_role_user_witness :
    ∃ u : User,
      (⟨[{ id := 1, name := "Johnny", email := "john@example.com"
           password := "HPassword123", role := "USER", delete := false }], []⟩ : DB).users
        = (⟨[], []⟩ : DB).users ++ [u]
      ∧ u.role = "USER"
      ∧ ({ status := 201, body := .signupOk "john@example.com" "USER"
           cookie := none, cleared := false } : Response)
          = { status := 201, body := .signupOk u.email "USER"
              cookie := none, cleared := false } :=
  signup_forces_role_user (fun s => "H" ++ s) ⟨[], []⟩
    ⟨"Johnny", "john@example.com", "Password123", some "ADMIN"⟩
    ⟨[{ id := 1, name := "Johnny", email := "john@example.com"
        password := "HPassword123", role := "USER", delete := false }], []⟩
    { status := 201, body := .signupOk "john@example.com" "USER"
      cookie := none, cleared := false }
    rfl

/-- C7: the Authorization Gate succeeds exactly when the context's role is
the string `"ADMIN"`, and every other role — `"ROOT"` included — gets the
401 "Access Denied. Admins only" error. -/
theorem admin_gate_exact_match (ctx : ReqContext) :
    (isAdminMiddleware ctx = .ok () ↔ ctx.user.role = "ADMIN")
    ∧ (ctx.user.role ≠ "ADMIN" →
        isAdminMiddleware ctx
          = .error (UnauthorizedException "Access Denied. Admins only" ErrorCode.UNAUTHORIZED)) := by
  unfold isAdminMiddleware
  constructor
  · constructor
    · intro h
      by_cases hr : ctx.user.role = "ADMIN"
      · exact hr
      · simp [hr] at h
    · intro h
      simp [h]
  · intro h
    simp [h]

/-- Witness for C7: the seed-script role `"ROOT"` is rejected by the gate
while `"ADMIN"` passes. -/
theorem admin_gate_exact_match_witness :
    isAdminMiddleware ⟨⟨1, "ROOT"⟩, ⟨1, "tk"⟩⟩
      = .error (UnauthorizedException "Access Denied. Admins only" ErrorCode.UNAUTHORIZED)
    ∧ isAdminMiddleware ⟨⟨2, "ADMIN"⟩, ⟨2, "tk"⟩⟩ = .ok () :=
  ⟨(admin_gate_exact_match ⟨⟨1, "ROOT"⟩, ⟨1, "tk"⟩⟩).2 (by decide),
   (admin_gate_exact_match ⟨⟨2, "ADMIN"⟩, ⟨2, "tk"⟩⟩).1.mpr rfl⟩

/-- C8 (counterexample): a self-targeted update whose payload role is
`"ROOT"` — a role value other than `"ADMIN"` — does not fail with the
self-demotion business error: `updateSchema` rejects it first, so the
response is the 400 Validation envelope, not the `SELF_DEMOTION` one. -/
theorem self_update_role_root_is_validation_error :
    routeUpdate (fun s => s)
        ⟨[{ id := 1, name := "admin", email := "admin@mail.com", password := "hpw"
            role := "ADMIN", delete := false }], []⟩
        ⟨⟨1, "ADMIN"⟩, ⟨1, "tk"⟩⟩ 1 ⟨none, none, none, some "ROOT"⟩
      = (⟨[{ id := 1, name := "admin", email := "admin@mail.com", password := "hpw"
             role := "ADMIN", delete := false }], []⟩,
         envelopeOf (ValidationException [⟨"role", "Invalid option"⟩]))
    ∧ envelopeOf (ValidationException [⟨"role", "Invalid option"⟩])
        ≠ envelopeOf (BadRequestException "You cannot demote yourself" ErrorCode.SELF_DEMOTION) := by
  exact ⟨rfl, by decide⟩

/-- C8 (amended): for a payload that passes `updateSchema` — so a role
change away from `ADMIN` means `role = "USER"` — a self-targeted update
fails with the self-demotion business error and the store is returned
unchanged: no field of the target row is persisted. -/
theorem update_self_demotion_guard (hash : Hasher) (db : DB) (ctx : ReqContext)
    (idParam : Nat) (body data : UpdateBody) (existing : User)
    (hfound : userByID db idParam = some existing)
    (hparse : updateSchemaParse body = .ok data)
    (hrole : data.role = some "USER")
    (hself : ctx.user.id = idParam) :
    routeUpdate hash db ctx idParam body
      = (db, envelopeOf (BadRequestException "You cannot demote yourself" ErrorCode.SELF_DEMOTION)) := by
  simp only [routeUpdate, update, hfound, hparse, hrole, hself, roleNonAdmin,
    runRoute, envelopeOfThrown]
  simp

/-- Witness for the amended C8: the acting admin (id 1) targeting id 1
with `role: "USER"` gets the self-demotion error and an unchanged store. -/
theorem update_self_demotion_guard_witness :
    routeUpdate (fun s => s)
        ⟨[{ id := 1, name := "admin", email := "admin@mail.com", password := "hpw"
            role := "ADMIN", delete := false }], []⟩
        ⟨⟨1, "ADMIN"⟩, ⟨1, "tk"⟩⟩ 1 ⟨none, none, none, some "USER"⟩
      = (⟨[{ id := 1, name := "admin", email := "admin@mail.com", password := "hpw"
             role := "ADMIN", delete := false }], []⟩,
         envelopeOf (BadRequestException "You cannot demote yourself" ErrorCode.SELF_DEMOTION)) :=
  update_self_demotion_guard _ _ _ _ _ ⟨none, none, none, some "USER"⟩ _ rfl rfl rfl rfl

/-- C9: when the password verifies but the Session Record insert fails
(`storeOk = false`), the thrown store error reaches the catch-all
boundary: the client gets the 500 envelope, the store is unchanged, and —
crucially — no `jwt` cookie is set on the response. -/
theorem login_store_failure_sets_no_cookie (compare : Comparer) (sign : Signer)
    (env : String) (db : DB) (email password : String) (user : User)
    (hfound : isExists db email = some user)
    (hpw : compare password user.password = true) :
    routeLogin compare sign false env db email password
      = (db, envelopeOf (InternalException "Something went wrong!"
          "P2002: token insert failed" ErrorCode.INTERNAL_EXCEPTION))
    ∧ (routeLogin compare sign false env db email password).2.cookie = none := by
  have h1 : routeLogin compare sign false env db email password
      = (db, envelopeOf (InternalException "Something went wrong!"
          "P2002: token insert failed" ErrorCode.INTERNAL_EXCEPTION)) := by
    simp only [routeLogin, login, hfound, hpw, createToken, runRoute, envelopeOfThrown]
    simp
  refine ⟨h1, ?_⟩
  rw [h1]
  rfl

/-- Witness for C9: a concrete failing insert surfaces the 500 envelope
with no cookie. -/
theorem login_store_failure_sets_no_cookie_witness :
    routeLogin (fun _ _ => true) (fun _ _ _ => "tok") false "development"
        ⟨[{ id := 1, name := "admin", email := "admin@mail.com", password := "hpw"
            role := "ADMIN", delete := false }], []⟩
        "admin@mail.com" "pw"
      = (⟨[{ id := 1, name := "admin", email := "admin@mail.com", password := "hpw"
             role := "ADMIN", delete := false }], []⟩,
         envelopeOf (InternalException "Something went wrong!"
           "P2002: token insert failed" ErrorCode.INTERNAL_EXCEPTION))
    ∧ (routeLogin (fun _ _ => true) (fun _ _ _ => "tok") false "development"
        ⟨[{ id := 1, name := "admin", email := "admin@mail.com", password := "hpw"
            role := "ADMIN", delete := false }], []⟩
        "admin@mail.com" "pw").2.cookie = none :=
  login_store_failure_sets_no_cookie _ _ _ _ _ _
    { id := 1, name := "admin", email := "admin@mail.com", password := "hpw"
      role := "ADMIN", delete := false }
    rfl rfl

/-- Signup never touches the Token table. -/
theorem routeSignup_tokens (hash : Hasher) (db : DB) (body : SignupBody) :
    ((routeSignup hash db body).1).tokens = db.tokens := by
  unfold routeSignup runRoute signup
  cases hp : singUpSchemaParse body with
  | error e => simp [hp]
  | ok data =>
    cases hex : isExists db data.email with
    | some u => simp [hp, hex]
    | none => simp [hp, hex, create]

/-- Login preserves the all-active invariant: it only ever appends a
record created with `active := true`. -/
theorem allActive_routeLogin (compare : Comparer) (sign : Signer) (storeOk : Bool)
    (env : String) (db : DB) (email password : String) (h : AllActive db) :
    AllActive ((routeLogin compare sign storeOk env db email password).1) := by
  unfold routeLogin runRoute login
  cases hex : isExists db email with
  | none => simpa [hex] using h
  | some user =>
    cases hc : compare password user.password with
    | false => simpa [hex, hc] using h
    | true =>
      cases storeOk with
      | false => simpa [hex, hc, createToken] using h
      | true =>
        simp only [hex, hc, createToken, Bool.not_true, Bool.false_eq_true, if_false, if_true]
        intro t ht
        simp only [List.mem_append, List.mem_singleton] at ht
        rcases ht with h1 | h2
        · exact h t h1
        · rw [h2]

/-- Logout preserves the all-active invariant: it only ever removes
records. -/
theorem allActive_routeLogout (verify : Verifier) (env : String) (db : DB)
    (cookie : Option String) (h : AllActive db) :
    AllActive ((routeLogout verify env db cookie).1) := by
  unfold routeLogout protectedRoute
  cases ha : authMiddleware verify db cookie with
  | error e => simpa using h
  | ok ctx =>
    unfold runRoute logout deleteToken
    cases hf : db.tokens.find?
        (fun t => t.id == ctx.token.id && t.key == ctx.token.key && t.active) with
    | none => simpa [hf] using h
    | some t =>
      simp only [hf]
      intro t' ht'
      exact h t' (List.mem_of_mem_filter ht')

/-- Admin update never touches the Token table. -/
theorem routeUpdate_tokens (hash : Hasher) (db : DB) (ctx : ReqContext)
    (idParam : Nat) (body : UpdateBody) :
    ((routeUpdate hash db ctx idParam body).1).tokens = db.tokens := by
  unfold routeUpdate runRoute update
  cases hu : userByID db idParam with
  | none => simp [hu]
  | some ex =>
    cases hp : updateSchemaParse body with
    | error e => simp [hu, hp]
    | ok data =>
      by_cases hc : (ctx.user.id == idParam && roleNonAdmin data.role) = true
      · simp [hu, hp, hc]
      · simp [hu, hp, hc, userUpdate]

/-- Admin soft-delete never touches the Token table. -/
theorem softDelete_tokens (db : DB) (ctx : ReqContext) (idParam : Nat) :
    ((runRoute db (softDelete db ctx idParam)).1).tokens = db.tokens := by
  unfold runRoute softDelete
  cases hu : userByID db idParam with
  | none => simp [hu]
  | some ex =>
    by_cases hc : (ctx.user.id == idParam) = true
    · simp [hu, hc]
    · simp [hu, hc, userSoftDelete]

/-- Every single operation preserves the all-active invariant. -/
theorem allActive_applyOp (db : DB) (op : Op) (h : AllActive db) :
    AllActive (applyOp db op) := by
  cases op with
  | opSignup hash body =>
    intro t ht
    rw [applyOp, routeSignup_tokens] at ht
    exact h t ht
  | opLogin compare sign storeOk env email password =>
    exact allActive_routeLogin compare sign storeOk env db email password h
  | opLogout verify env cookie =>
    exact allActive_routeLogout verify env db cookie h
  | opUpdate hash ctx idParam body =>
    intro t ht
    rw [applyOp, routeUpdate_tokens] at ht
    exact h t ht
  | opSoftDelete ctx idParam =>
    intro t ht
    rw [applyOp, softDelete_tokens] at ht
    exact h t ht

/-- C10: no operation of the authentication core ever sets a Session
Record's `active` flag to false — records enter the store only through
login's `createToken` (with the `active := true` default) and leave it
only through logout's hard delete — so in every state reachable from empty
tables by any sequence of operations, every existing Session Record has
`active = true`. -/
theorem session_records_always_active (ops : List Op) : AllActive (reachable ops) := by
  have gen : ∀ (l : List Op) (db : DB), AllActive db → AllActive (l.foldl applyOp db) := by
    intro l
    induction l with
    | nil => exact fun db h => h
    | cons op tl ih => exact fun db h => ih _ (allActive_applyOp db op h)
  exact gen ops ⟨[], []⟩ (fun t ht => absurd ht (List.not_mem_nil t))

end ApiUser
